import Mathlib

/-!
Shallow embedding of the ticket-reservation / payment-settlement core of the
prize-raffle bot (`bot/database/prize_repository.py`, `bot/handlers/tickets.py`,
`bot/services/payment_service.py`, `bot/utils/prize_announcer.py`, and the
Django admin model validation in `admin/prizes/models.py`).

Database rows become Lean structures, the database a record of lists, and each
Python coroutine a pure function from the database (plus an explicit `now`
parameter for `datetime.now()`) to a result and the new database.  Wall-clock
instants are abstract integers; `now + d` stands for `now + timedelta(d)`.
-/

namespace PrizeBot

/-- A row of `prizes_telegramuser` (`bot/database/models.py`): the surrogate
primary key `id` and the external `telegram_id`. -/
structure TgUser where
  id : Nat
  telegram_id : Nat
  deriving DecidableEq

/-- A row of `prizes_prize` (`bot/database/models.py`).  `ticket_price` is an
integer number of currency units (the decimal scale is irrelevant to the
claims); `chat_message_id` is the announcement handle. -/
structure Prize where
  id : Nat
  title : String
  start_date : Int
  end_date : Int
  ticket_price : Int
  ticket_count : Nat
  is_active : Bool
  chat_message_id : Option Nat
  deriving DecidableEq

/-- A row of `prizes_ticket` (`bot/database/models.py`).  `created_at` and
`updated_at` are bookkeeping timestamps with no behavioural content and are
omitted. -/
structure Ticket where
  prize_id : Nat
  user_id : Option Nat
  ticket_number : Nat
  is_reserved : Bool
  is_paid : Bool
  reserved_until : Option Int
  payment_id : Option String
  deriving DecidableEq

/-- A row of `prizes_payment` together with its `prizes_payment_tickets`
link rows (represented by the settled ticket numbers). -/
structure Payment where
  user_id : Nat
  prize_id : Nat
  amount : Int
  payment_id : String
  is_successful : Bool
  ticket_numbers : List Nat
  deriving DecidableEq

/-- The whole relational state the core operates on. -/
structure DB where
  prizes : List Prize
  users : List TgUser
  tickets : List Ticket
  payments : List Payment
  deriving DecidableEq

/-- `session.execute(select(Prize).where(Prize.id == prize_id)).scalars().first()`. -/
def findPrize (db : DB) (prize_id : Nat) : Option Prize :=
  db.prizes.find? (fun p => p.id == prize_id)

/-- `select(TelegramUser).where(TelegramUser.telegram_id == tg)` (unique column). -/
def findUserByTg (db : DB) (tg : Nat) : Option TgUser :=
  db.users.find? (fun u => u.telegram_id == tg)

/-- `select(TelegramUser).where(TelegramUser.id == uid)` (primary key). -/
def findUserById (db : DB) (uid : Nat) : Option TgUser :=
  db.users.find? (fun u => u.id == uid)

/-- The first ticket row keyed by `(prize_id, ticket_number)`; the table has a
unique constraint on that pair, so "first" is "the" row. -/
def firstTicket (tickets : List Ticket) (prize_id n : Nat) : Option Ticket :=
  tickets.find? (fun t => t.prize_id == prize_id && t.ticket_number == n)

/-- Update the first list element satisfying `p` (the ORM mutates the row
object returned by the query). -/
def updateFirst (p : Ticket → Bool) (f : Ticket → Ticket) : List Ticket → List Ticket
  | [] => []
  | t :: ts => if p t then f t :: ts else t :: updateFirst p f ts

/-- `get_available_tickets` (`prize_repository.py` 62-96): the prize's dense
range `1..ticket_count` minus every ticket number whose row is reserved or
paid; `[]` when the prize id is unknown.  `List.range' 1 count` is already
sorted ascending, matching the `sorted(...)` in the source. -/
def get_available_tickets (db : DB) (prize_id : Nat) : List Nat :=
  match findPrize db prize_id with
  | none => []
  | some p =>
      let reservedNums :=
        (db.tickets.filter
          (fun t => t.prize_id == prize_id && (t.is_reserved || t.is_paid))).map
          (fun t => t.ticket_number)
      (List.range' 1 p.ticket_count).filter (fun n => !(reservedNums.contains n))

/-- The distinct user-facing strings `reserve_tickets` can return. -/
inductive ReserveMsg where
  | prizeNotFound
  | prizeInactive
  | userNotFound
  | ticketsUnavailable
  | reserved
  deriving DecidableEq

/-- The `Tuple[bool, List[int], str]` returned by `reserve_tickets`. -/
structure ReserveResult where
  success : Bool
  tickets : List Nat
  msg : ReserveMsg
  deriving DecidableEq

/-- The in-place update of a clean existing row by the reservation loop
(`prize_repository.py` 158-162): attach the user, set the hold and its
deadline. -/
def reserveHold (uid : Nat) (rtime : Int) (t : Ticket) : Ticket :=
  { t with user_id := some uid, is_reserved := true, reserved_until := some rtime }

/-- The row created lazily by the reservation loop (`prize_repository.py`
163-176). -/
def newReservedTicket (prize_id uid n : Nat) (rtime : Int) : Ticket :=
  { prize_id := prize_id, user_id := some uid, ticket_number := n,
    is_reserved := true, is_paid := false, reserved_until := some rtime,
    payment_id := none }

/-- One iteration of the reservation loop in `reserve_tickets`
(`prize_repository.py` 144-178): look the row up; an already reserved or paid
row is skipped (`continue`); a clean row is updated in place; a missing row is
created.  The accumulator carries the ticket table and `reserved_tickets`. -/
def reserveStep (prize_id uid : Nat) (rtime : Int)
    (acc : List Ticket × List Nat) (n : Nat) : List Ticket × List Nat :=
  match firstTicket acc.1 prize_id n with
  | some t =>
      if t.is_reserved || t.is_paid then acc
      else
        (updateFirst (fun t => t.prize_id == prize_id && t.ticket_number == n)
          (reserveHold uid rtime) acc.1,
         acc.2 ++ [n])
  | none =>
      (acc.1 ++ [newReservedTicket prize_id uid n rtime], acc.2 ++ [n])

/-- `reserve_tickets` (`prize_repository.py` 99-187).  `reserve_time` is the
hold duration (minutes in the source); `reservation_time = now + reserve_time`.
Order of checks follows the source: prize found, prize active, user found,
availability of every requested number, then the per-number loop. -/
def reserve_tickets (db : DB) (prize_id user_tg : Nat) (ticket_numbers : List Nat)
    (reserve_time now : Int) : ReserveResult × DB :=
  match findPrize db prize_id with
  | none => (⟨false, [], .prizeNotFound⟩, db)
  | some p =>
      if !p.is_active then (⟨false, [], .prizeInactive⟩, db)
      else
        match findUserByTg db user_tg with
        | none => (⟨false, [], .userNotFound⟩, db)
        | some u =>
            let available := get_available_tickets db prize_id
            let unavailable := ticket_numbers.filter (fun n => !(available.contains n))
            if !unavailable.isEmpty then
              (⟨false, unavailable, .ticketsUnavailable⟩, db)
            else
              let res := ticket_numbers.foldl
                (reserveStep prize_id u.id (now + reserve_time)) (db.tickets, [])
              (⟨true, res.2, .reserved⟩, { db with tickets := res.1 })

/-- The two strings `cancel_all_reservations` can pair with `True`. -/
inductive CancelMsg where
  | noActiveReservations
  | cancelledCount (n : Nat)
  deriving DecidableEq

/-- The rows `cancel_all_reservations` selects: the user's reserved, unpaid
tickets. -/
def heldByUser (uid : Nat) (t : Ticket) : Bool :=
  t.user_id == some uid && t.is_reserved && !t.is_paid

/-- Releasing one row: clear the hold, the deadline and the owner
(`prize_repository.py` 216-218 and 248-250). -/
def releaseTicket (t : Ticket) : Ticket :=
  { t with is_reserved := false, reserved_until := none, user_id := none }

/-- `cancel_all_reservations` (`prize_repository.py` 190-226).  An unknown
user returns `(True, "no active reservations")`; a known user with held rows
releases them and returns `(True, "cancelled n")`; a known user with no held
rows falls off the end of the `try` block, so the coroutine returns Python
`None` — modelled as `none`. -/
def cancel_all_reservations (db : DB) (user_tg : Nat) :
    Option (Bool × CancelMsg) × DB :=
  match findUserByTg db user_tg with
  | none => (some (true, .noActiveReservations), db)
  | some u =>
      let held := db.tickets.filter (heldByUser u.id)
      if !held.isEmpty then
        (some (true, .cancelledCount held.length),
         { db with tickets :=
            db.tickets.map (fun t => if heldByUser u.id t then releaseTicket t else t) })
      else
        (none, db)

/-- The SQL filter of `check_and_release_expired_reservations`: reserved,
unpaid, and `reserved_until < now` (a NULL `reserved_until` compares false). -/
def expiredHold (now : Int) (t : Ticket) : Bool :=
  t.is_reserved && !t.is_paid &&
    (match t.reserved_until with
     | some r => r < now
     | none => false)

/-- `check_and_release_expired_reservations` (`prize_repository.py` 229-263):
release every expired hold (clearing hold, deadline and owner) and return the
count. -/
def check_and_release_expired_reservations (db : DB) (now : Int) : Nat × DB :=
  let expired := db.tickets.filter (expiredHold now)
  ((expired.length : Nat),
   { db with tickets :=
      db.tickets.map (fun t => if expiredHold now t then releaseTicket t else t) })

/-- The prefix marking a synthetic free-prize payment reference. -/
def freeTag : String := "free_"

/-- The separator of the synthetic reference fields. -/
def usep : String := "_"

/-- The terminal gateway status the settlement path commits on. -/
def succeededStatus : String := "succeeded"

/-- A sample gateway payment reference used by the concrete scenarios. -/
def payRef : String := "pay_1"

/-- Python `str.startswith`, modelled on the character list so that the
kernel can evaluate it. -/
def strStartsWith (s pre : String) : Bool := pre.data.isPrefixOf s.data

/-- Python `str.split(sep)` for a one-character separator, on the character
list. -/
def splitOnChar (c : Char) : List Char → List (List Char)
  | [] => [[]]
  | x :: xs =>
      match splitOnChar c xs with
      | [] => [[]]
      | g :: gs => if x == c then [] :: g :: gs else (x :: g) :: gs

/-- `payment_id.split("_")` from the free-reference parser. -/
def strSplitUnderscore (s : String) : List String :=
  (splitOnChar '_' s.data).map (fun cs => String.mk cs)

/-- The numeric value of one ASCII digit. -/
def charDigit? (c : Char) : Option Nat :=
  if 48 ≤ c.toNat ∧ c.toNat ≤ 57 then some (c.toNat - 48) else none

/-- Helper of `strToNat?`: fold the digits left to right, failing on any
non-digit. -/
def digitsToNat? : List Char → Option Nat → Option Nat
  | [], acc => acc
  | c :: cs, acc =>
      match charDigit? c, acc with
      | some d, some a => digitsToNat? cs (some (a * 10 + d))
      | _, _ => none

/-- Python `int(...)` as applied to the digit-only fields of the synthetic
payment references (`none` models the `ValueError` caught by the settlement
handler). -/
def strToNat? (s : String) : Option Nat :=
  match s.data with
  | [] => none
  | l => digitsToNat? l (some 0)

/-- The synthetic payment reference written by the free-ticket grant
(`tickets.py` 337); the source interpolates the Telegram id of the caller,
the prize id and the current timestamp. -/
def freeRef (user_tg prize_id : Nat) (now : Int) : String :=
  freeTag ++ toString user_tg ++ usep ++ toString prize_id ++ usep ++ toString now

/-- The predicate of the settlement batch query (`payment_service.py` 245-252
and 276-283): the key user's reserved, unpaid tickets of the key prize.  The
user key is an `Option` because the regular branch copies it off the carrying
ticket row, whose `user_id` column is nullable (SQLAlchemy renders `== None`
as `IS NULL`). -/
def batchPred (uid : Option Nat) (prize_id : Nat) (t : Ticket) : Bool :=
  t.user_id == uid && t.prize_id == prize_id && t.is_reserved && !t.is_paid

/-- Marking one ticket paid on settlement (`payment_service.py` 365-368). -/
def settleTicket (t : Ticket) : Ticket :=
  { t with is_paid := true, is_reserved := false, reserved_until := none }

/-- Batch-key resolution of `update_tickets_payment_status`
(`payment_service.py` 233-289): a reference starting with `free_` is parsed
as `free_{user_id}_{prize_id}_{timestamp}` (an unparsable number raises and
the exception handler returns failure, modelled as `none`); otherwise the
ticket carrying the reference supplies user and prize. -/
def settleKey (db : DB) (payment_id : String) : Option (Option Nat × Nat) :=
  if strStartsWith payment_id freeTag then
    let parts := strSplitUnderscore payment_id
    if parts.length ≥ 3 then
      match (parts.get? 1).bind strToNat?, (parts.get? 2).bind strToNat? with
      | some uid, some pid => some (some uid, pid)
      | _, _ => none
    else none
  else
    (db.tickets.find? (fun t => t.payment_id == some payment_id)).map
      (fun t => (t.user_id, t.prize_id))

/-- `update_tickets_payment_status` (`payment_service.py` 220-381): resolve
the batch; an empty batch is a failure with an empty list; on `succeeded`
insert one Payment row plus its ticket links and mark every batch ticket
paid; on any other status leave the batch reserved and report failure with
the untouched batch. -/
def update_tickets_payment_status (db : DB) (payment_id status : String) :
    (Bool × List Ticket) × DB :=
  match settleKey db payment_id with
  | none => ((false, []), db)
  | some (uid, pid) =>
      let batch := db.tickets.filter (batchPred uid pid)
      if batch.isEmpty then ((false, []), db)
      else if status == succeededStatus then
        match uid.bind (findUserById db), findPrize db pid with
        | some u, some p =>
            let pay : Payment :=
              { user_id := u.id, prize_id := pid,
                amount := (batch.length : Int) * p.ticket_price,
                payment_id := payment_id, is_successful := true,
                ticket_numbers := batch.map (fun t => t.ticket_number) }
            ((true, batch.map settleTicket),
             { db with
                tickets := db.tickets.map
                  (fun t => if batchPred uid pid t then settleTicket t else t),
                payments := db.payments ++ [pay] })
        | _, _ => ((false, []), db)
      else ((false, batch), db)

/-- `scalar_one_or_none()`: none on no row, the row when unique, and a raised
`MultipleResultsFound` on more than one. -/
def scalarOneOrNone {α : Type} (l : List α) : Except String (Option α) :=
  match l with
  | [] => .ok none
  | [a] => .ok (some a)
  | _ => .error "MultipleResultsFound"

/-- `init_payment` (`payment_service.py` 63-170).  `gateway` is the opaque
external call: `some ref` when YooKassa returns a payment id, `none` on any
transport or response failure.  On success the batch's holds are extended to
`now + 10` (minutes in the source) and the reference is stored on the first
batch ticket. -/
def init_payment (db : DB) (user_tg : Nat) (gateway : Option String) (now : Int) :
    Option String × DB :=
  match findUserByTg db user_tg with
  | none => (none, db)
  | some u =>
      match scalarOneOrNone (db.prizes.filter (fun p => p.is_active)) with
      | .error _ => (none, db)
      | .ok none => (none, db)
      | .ok (some p) =>
          let batch := db.tickets.filter (batchPred (some u.id) p.id)
          if batch.isEmpty then (none, db)
          else
            match gateway with
            | none => (none, db)
            | some ref =>
                let ts1 := db.tickets.map
                  (fun t => if batchPred (some u.id) p.id t
                            then { t with reserved_until := some (now + 10) } else t)
                (some ref,
                 { db with tickets :=
                    (updateFirst (batchPred (some u.id) p.id)
                      (fun t => { t with payment_id := some ref }) ts1) })

/-- The user-visible outcomes of the `process_ticket_numbers` handler. -/
inductive FlowResult where
  | statePrizeMissing
  | prizeNoLongerActive
  | noNumbersParsed
  | oneTicketOnlyFree
  | ticketsUnavailable (nums : List Nat)
  | dbUserMissing
  | alreadyParticipated
  | ticketTakenOrMissing (n : Nat)
  | freeTicketGranted (n : Nat)
  | reservationFailed (r : ReserveResult)
  | ticketsReserved (nums : List Nat)
  deriving DecidableEq

/-- The free-grant row query (`tickets.py` 316-323): the requested number's
row, not yet attached to any user and not paid. -/
def grantable (prize_id n : Nat) (t : Ticket) : Bool :=
  t.prize_id == prize_id && t.ticket_number == n && t.user_id == none && !t.is_paid

/-- The free-grant mutation (`tickets.py` 334-337): attach the user, mark the
row paid, store the synthetic reference.  `is_reserved` and `reserved_until`
are left untouched by the source. -/
def grantTicket (uid : Nat) (ref : String) (t : Ticket) : Ticket :=
  { t with user_id := some uid, is_paid := true, payment_id := some ref }

/-- `process_ticket_numbers` (`tickets.py` 205-409), from the point where the
ticket numbers have been parsed (`parse_ticket_numbers` dedups and sorts).
Checks in source order: state carries a prize id, that prize is still the
active one, numbers parsed, free prizes take a single number, all requested
numbers available; then the free grant (participation check, row lookup,
direct commit as paid with a synthetic reference) or the paid reservation
path via `reserve_tickets`. -/
def process_ticket_numbers (db : DB) (state_prize_id : Option Nat) (user_tg : Nat)
    (ticket_numbers : List Nat) (now : Int) : FlowResult × DB :=
  match state_prize_id with
  | none => (.statePrizeMissing, db)
  | some prize_id =>
      match db.prizes.find? (fun p => p.is_active) with
      | none => (.prizeNoLongerActive, db)
      | some p =>
          if p.id != prize_id then (.prizeNoLongerActive, db)
          else
            let is_free := p.ticket_price == 0
            if ticket_numbers.isEmpty then (.noNumbersParsed, db)
            else
              let available := get_available_tickets db prize_id
              if is_free && ticket_numbers.length > 1 then (.oneTicketOnlyFree, db)
              else
                let unavailable :=
                  ticket_numbers.filter (fun n => !(available.contains n))
                if !unavailable.isEmpty then (.ticketsUnavailable unavailable, db)
                else if is_free then
                  match findUserByTg db user_tg with
                  | none => (.dbUserMissing, db)
                  | some u =>
                      let existing := db.tickets.filter
                        (fun t => t.user_id == some u.id && t.prize_id == prize_id
                                  && t.is_paid)
                      if !existing.isEmpty then (.alreadyParticipated, db)
                      else
                        let n := ticket_numbers.headD 0
                        match db.tickets.find? (grantable prize_id n) with
                        | none => (.ticketTakenOrMissing n, db)
                        | some _ =>
                            (.freeTicketGranted n,
                             { db with tickets :=
                                (updateFirst (grantable prize_id n)
                                  (grantTicket u.id (freeRef user_tg prize_id now))
                                  db.tickets) })
                else
                  let r := reserve_tickets db prize_id user_tg ticket_numbers 1 now
                  if !r.1.success then (.reservationFailed r.1, r.2)
                  else (.ticketsReserved r.1.tickets, r.2)

/-- The declared columns of the bot-side SQLAlchemy `Prize` model
(`bot/database/models.py` 36-53).  `winner_determined` is not among them. -/
def botPrizeColumns : List String :=
  ["id", "title", "image", "start_date", "end_date", "ticket_price",
   "ticket_count", "is_active", "created_at", "updated_at", "chat_message_id"]

/-- The column name `get_pending_prize` filters on. -/
def winnerDeterminedCol : String := "winner_determined"

/-- The Python `AttributeError` raised when the query of `get_pending_prize`
references the missing attribute. -/
def attrErr : String := "AttributeError: winner_determined"

/-- `get_pending_prize` (`prize_announcer.py` 53-70): the query references
`Prize.winner_determined`, an attribute the bot's `Prize` model does not
declare, so building the query raises `AttributeError` before anything runs.
The `then` branch writes out the query as it would behave had the column
existed (order_by is irrelevant: `scalar_one_or_none` raises on more than one
row regardless of order); it is dead code, exactly as in the source. -/
def get_pending_prize (db : DB) (now : Int) : Except String (Option Prize) :=
  if botPrizeColumns.contains winnerDeterminedCol then
    scalarOneOrNone (db.prizes.filter
      (fun p => !p.is_active && p.start_date ≤ now && now < p.end_date))
  else
    .error attrErr

/-- `deactivate_all_active_prizes` (`prize_announcer.py` 255-281): flip
`is_active` off on every active prize whose end has passed (`end ≤ now`). -/
def deactivate_all_active_prizes (db : DB) (now : Int) : DB :=
  { db with prizes := (db.prizes.map
      (fun p => if p.is_active && p.end_date ≤ now
                then { p with is_active := false } else p)) }

/-- `check_and_announce_prizes` (`prize_announcer.py` 284-331).
`announceResult` is the external channel's reply to `send_prize_announcement`
(`some messageId` or `none`).  The outer `try` catches both a
`MultipleResultsFound` from `get_active_prize` and the `AttributeError` from
`get_pending_prize`; in either case the state after the already-committed
deactivation sweep is returned. -/
def check_and_announce_prizes (db : DB) (now : Int) (announceResult : Option Nat) : DB :=
  let db1 := deactivate_all_active_prizes db now
  match scalarOneOrNone (db1.prizes.filter (fun p => p.is_active)) with
  | .error _ => db1
  | .ok (some p) =>
      match p.chat_message_id with
      | some _ => db1
      | none =>
          match announceResult with
          | some mid =>
              { db1 with prizes := (db1.prizes.map
                  (fun q => if q.id == p.id
                            then { q with chat_message_id := some mid } else q)) }
          | none => db1
  | .ok none =>
      match get_pending_prize db1 now with
      | .error _ => db1
      | .ok none => db1
      | .ok (some p) =>
          let activated :=
            match announceResult with
            | some mid => { p with is_active := true, chat_message_id := some mid }
            | none => { p with is_active := true }
          { db1 with prizes := (db1.prizes.map
              (fun q => if q.id == p.id then activated else q)) }

/-- `check_and_finish_expired_prizes` (`prize_repository.py` 266-301):
deactivate every active prize whose end is strictly past and return the
finished list. -/
def check_and_finish_expired_prizes (db : DB) (now : Int) : List Prize × DB :=
  ((db.prizes.filter (fun p => p.is_active && p.end_date < now)).map
     (fun p => { p with is_active := false }),
   { db with prizes := (db.prizes.map
      (fun p => if p.is_active && p.end_date < now
                then { p with is_active := false } else p)) })

/-- The validation failures of `Prize.clean` (`admin/prizes/models.py` 53-93). -/
inductive CleanError where
  | secondActive
  | endNotAfterStart
  | endNotInFuture
  | negativePrice
  | nonPositiveTicketCount
  | overlappingWindow
  deriving DecidableEq

/-- The three-disjunct overlap test of `Prize.clean` (all bounds inclusive). -/
def windowsOverlap (q p : Prize) : Bool :=
  (q.start_date ≤ p.start_date && p.start_date ≤ q.end_date) ||
  (q.start_date ≤ p.end_date && p.end_date ≤ q.end_date) ||
  (p.start_date ≤ q.start_date && q.end_date ≤ p.end_date)

/-- `Prize.clean` (`admin/prizes/models.py` 53-93), run on every admin create
or update before saving: at most one active prize, end after start, end in
the future, non-negative price, positive ticket count, no window overlap with
any other prize. -/
def prize_clean (prizes : List Prize) (p : Prize) (now : Int) : Except CleanError Unit :=
  if p.is_active && prizes.any (fun q => q.id != p.id && q.is_active) then
    .error .secondActive
  else if p.end_date ≤ p.start_date then .error .endNotAfterStart
  else if p.end_date ≤ now then .error .endNotInFuture
  else if p.ticket_price < 0 then .error .negativePrice
  else if p.ticket_count == 0 then .error .nonPositiveTicketCount
  else if prizes.any (fun q => q.id != p.id && windowsOverlap q p) then
    .error .overlappingWindow
  else .ok ()

/-- `Prize.create_tickets` (`admin/prizes/models.py` 104-121): eagerly create
the dense row range `1..count`, unreserved, unpaid and unowned. -/
def create_tickets (prize_id count : Nat) : List Ticket :=
  (List.range' 1 count).map (fun n =>
    { prize_id := prize_id, user_id := none, ticket_number := n,
      is_reserved := false, is_paid := false, reserved_until := none,
      payment_id := none })

/-- `Prize.save` (`admin/prizes/models.py` 95-102): update in place when the
primary key exists, otherwise insert and bulk-create the ticket rows. -/
def admin_save_prize (db : DB) (p : Prize) : DB :=
  if db.prizes.any (fun q => q.id == p.id) then
    { db with prizes := db.prizes.map (fun q => if q.id == p.id then p else q) }
  else
    { db with prizes := db.prizes ++ [p],
              tickets := db.tickets ++ create_tickets p.id p.ticket_count }

/-- The empty database the deployment starts from. -/
def emptyDB : DB := { prizes := [], users := [], tickets := [], payments := [] }

/-- One mutating invocation of the core: the admin save (guarded by its
validation), user upsert, and every bot-side operation embedded above. -/
inductive Step : DB → DB → Prop where
  | adminSave (db : DB) (p : Prize) (now : Int) :
      prize_clean db.prizes p now = .ok () → Step db (admin_save_prize db p)
  | addUser (db : DB) (u : TgUser) :
      Step db { db with users := db.users ++ [u] }
  | reserve (db : DB) (prize_id user_tg : Nat) (nums : List Nat) (rt now : Int) :
      Step db (reserve_tickets db prize_id user_tg nums rt now).2
  | cancelAll (db : DB) (user_tg : Nat) :
      Step db (cancel_all_reservations db user_tg).2
  | releaseExpired (db : DB) (now : Int) :
      Step db (check_and_release_expired_reservations db now).2
  | settle (db : DB) (payment_id status : String) :
      Step db (update_tickets_payment_status db payment_id status).2
  | initPayment (db : DB) (user_tg : Nat) (gw : Option String) (now : Int) :
      Step db (init_payment db user_tg gw now).2
  | handleNumbers (db : DB) (spid : Option Nat) (user_tg : Nat)
      (nums : List Nat) (now : Int) :
      Step db (process_ticket_numbers db spid user_tg nums now).2
  | announceSweep (db : DB) (now : Int) (ann : Option Nat) :
      Step db (check_and_announce_prizes db now ann)
  | finishSweep (db : DB) (now : Int) :
      Step db (check_and_finish_expired_prizes db now).2

/-- The states reachable from the empty database through core operations. -/
inductive Reachable : DB → Prop where
  | init : Reachable emptyDB
  | step {db db2 : DB} : Reachable db → Step db db2 → Reachable db2

/-- Some row of `(prize_id, n)` is currently held or paid — exactly what
removes `n` from the available list. -/
def heldOrPaid (db : DB) (prize_id n : Nat) : Bool :=
  db.tickets.any (fun t => t.prize_id == prize_id && t.ticket_number == n
                            && (t.is_reserved || t.is_paid))

/-- Data-model invariant: a paid ticket is not reserved and carries no
deadline. -/
def TicketPaidInv (t : Ticket) : Prop :=
  t.is_paid = true → t.is_reserved = false ∧ t.reserved_until = none

/-- Data-model invariant: an unowned ticket is unreserved, unpaid and
carries no deadline. -/
def TicketOwnerInv (t : Ticket) : Prop :=
  t.user_id = none → t.is_reserved = false ∧ t.is_paid = false ∧ t.reserved_until = none

/-- Both ticket invariants over the whole table. -/
def DBInv (db : DB) : Prop := ∀ t ∈ db.tickets, TicketPaidInv t ∧ TicketOwnerInv t

/-- The paid-ticket half of the invariant over the whole table. -/
def PaidInvDB (db : DB) : Prop := ∀ t ∈ db.tickets, TicketPaidInv t

instance (t : Ticket) : Decidable (TicketPaidInv t) := by
  unfold TicketPaidInv; infer_instance

instance (t : Ticket) : Decidable (TicketOwnerInv t) := by
  unfold TicketOwnerInv; infer_instance

instance (db : DB) : Decidable (DBInv db) := by
  unfold DBInv; infer_instance

instance (db : DB) : Decidable (PaidInvDB db) := by
  unfold PaidInvDB; infer_instance

/-- How many prizes are flagged active. -/
def activeCount (prizes : List Prize) : Nat :=
  (prizes.filter (fun p => p.is_active)).length

/-- Prize-table invariant: primary keys are unique and at most one prize is
active. -/
def PrizeInv (db : DB) : Prop :=
  (db.prizes.map (fun p => p.id)).Nodup ∧ activeCount db.prizes ≤ 1

/-- A paid prize used by the concrete scenarios below. -/
def prizePaid : Prize :=
  { id := 1, title := "grand", start_date := 0, end_date := 100,
    ticket_price := 10, ticket_count := 4, is_active := true,
    chat_message_id := none }

/-- A zero-price prize used by the free-flow scenarios. -/
def prizeFree : Prize :=
  { id := 2, title := "freebie", start_date := 0, end_date := 100,
    ticket_price := 0, ticket_count := 3, is_active := true,
    chat_message_id := none }

/-- The single registered user of the concrete scenarios. -/
def userA : TgUser := { id := 1, telegram_id := 100 }

/-- Ticket 1 of the paid prize, held by `userA` until instant 50. -/
def ticketHeld : Ticket :=
  { prize_id := 1, user_id := some 1, ticket_number := 1, is_reserved := true,
    is_paid := false, reserved_until := some 50, payment_id := none }

/-- Ticket 2 of the paid prize, held by `userA` and carrying the gateway
payment reference. -/
def ticketCarrying : Ticket :=
  { prize_id := 1, user_id := some 1, ticket_number := 2, is_reserved := true,
    is_paid := false, reserved_until := some 50, payment_id := some payRef }

/-- Ticket 3 of the paid prize, held by `userA` with an expired deadline. -/
def ticketExpired : Ticket :=
  { prize_id := 1, user_id := some 1, ticket_number := 3, is_reserved := true,
    is_paid := false, reserved_until := some 5, payment_id := none }

/-- Ticket 4 of the paid prize, already paid by `userA`. -/
def ticketPaidRow : Ticket :=
  { prize_id := 1, user_id := some 1, ticket_number := 4, is_reserved := false,
    is_paid := true, reserved_until := none, payment_id := none }

/-- A database with one held ticket: `userA` holds ticket 1 of `prizePaid`. -/
def dbHeld : DB :=
  { prizes := [prizePaid], users := [userA], tickets := [ticketHeld],
    payments := [] }

/-- A database where `userA` exists but holds nothing reservable: their only
ticket is already paid. -/
def dbNoHolds : DB :=
  { prizes := [prizePaid], users := [userA], tickets := [ticketPaidRow],
    payments := [] }

/-- A database ready for settlement of `payRef`: `userA` holds tickets 1 and
2, ticket 2 carrying the reference. -/
def dbSettle : DB :=
  { prizes := [prizePaid], users := [userA],
    tickets := [ticketHeld, ticketCarrying], payments := [] }

/-- A database with one expired hold next to one live hold. -/
def dbExpiry : DB :=
  { prizes := [prizePaid], users := [userA],
    tickets := [ticketExpired, ticketHeld], payments := [] }

/-- A database with the free prize fully stocked with eagerly created rows. -/
def dbFree : DB :=
  { prizes := [prizeFree], users := [userA], tickets := create_tickets 2 3,
    payments := [] }

/-- The held-by-`uid` row state the reservation loop establishes. -/
def heldRowAt (ts : List Ticket) (prize_id n uid : Nat) (rtime : Int) : Prop :=
  ∃ t, firstTicket ts prize_id n = some t ∧ t.user_id = some uid ∧
    t.is_reserved = true ∧ t.is_paid = false ∧ t.reserved_until = some rtime

/-- The row state a successful availability check guarantees per number:
no row yet, or a clean (unreserved, unpaid) row. -/
def cleanRowAt (ts : List Ticket) (prize_id n : Nat) : Prop :=
  firstTicket ts prize_id n = none ∨
    ∃ t, firstTicket ts prize_id n = some t ∧ t.is_reserved = false ∧ t.is_paid = false

/-- A second active prize used to exercise the validation rejection. -/
def prizeSecond : Prize :=
  { id := 9, title := "second", start_date := 200, end_date := 300,
    ticket_price := 5, ticket_count := 2, is_active := true,
    chat_message_id := none }

/-- The database after the free grant: `userA` owns paid ticket 2 of the
free prize. -/
def dbFreeDone : DB := (process_ticket_numbers dbFree (some 2) 100 [2] 5).2

/-- The eagerly created clean row number 2 of the free prize. -/
def freeRow2 : Ticket :=
  { prize_id := 2, user_id := none, ticket_number := 2, is_reserved := false,
    is_paid := false, reserved_until := none, payment_id := none }

example :
    get_available_tickets
      { prizes := [{ id := 1, title := "p", start_date := 0, end_date := 100,
                     ticket_price := 10, ticket_count := 4, is_active := true,
                     chat_message_id := none }],
        users := [], tickets := [
          { prize_id := 1, user_id := some 7, ticket_number := 2, is_reserved := true,
            is_paid := false, reserved_until := some 5, payment_id := none }],
        payments := [] } 1 = [1, 3, 4] := by decide

lemma updateFirst_eq_self {q : Ticket → Bool} {f : Ticket → Ticket} :
    ∀ {l : List Ticket}, l.find? q = none → updateFirst q f l = l := by
  intro l h
  induction l with
  | nil => rfl
  | cons t ts ih =>
      by_cases hq : q t = true
      · rw [List.find?_cons_of_pos _ hq] at h
        exact absurd h (by simp)
      · rw [List.find?_cons_of_neg _ hq] at h
        simp [updateFirst, hq, ih h]

lemma find?_updateFirst_disjoint {p q : Ticket → Bool} {f : Ticket → Ticket}
    (h1 : ∀ t, q t = true → p t = false)
    (h2 : ∀ t, q t = true → p (f t) = false) :
    ∀ l : List Ticket, (updateFirst q f l).find? p = l.find? p := by
  intro l
  induction l with
  | nil => rfl
  | cons t ts ih =>
      by_cases hq : q t = true
      · simp only [updateFirst, hq, if_true]
        rw [List.find?_cons_of_neg _ (by simp [h2 t hq]),
            List.find?_cons_of_neg _ (by simp [h1 t hq])]
      · simp only [updateFirst, hq, if_false, Bool.false_eq_true]
        by_cases hp : p t = true
        · rw [List.find?_cons_of_pos _ hp, List.find?_cons_of_pos _ hp]
        · rw [List.find?_cons_of_neg _ hp, List.find?_cons_of_neg _ hp]
          exact ih

lemma find?_updateFirst_found {q : Ticket → Bool} {f : Ticket → Ticket}
    (hf : ∀ t, q t = true → q (f t) = true) :
    ∀ {l : List Ticket} {t0 : Ticket}, l.find? q = some t0 →
      (updateFirst q f l).find? q = some (f t0) := by
  intro l
  induction l with
  | nil => intro t0 h; cases h
  | cons t ts ih =>
      intro t0 h
      by_cases hq : q t = true
      · rw [List.find?_cons_of_pos _ hq] at h
        cases h
        simp only [updateFirst, hq, if_true]
        rw [List.find?_cons_of_pos _ (hf t hq)]
      · rw [List.find?_cons_of_neg _ hq] at h
        simp only [updateFirst, hq, if_false, Bool.false_eq_true]
        rw [List.find?_cons_of_neg _ hq]
        exact ih h

lemma mem_updateFirst_of_found {q : Ticket → Bool} {f : Ticket → Ticket} :
    ∀ {l : List Ticket} {t0 : Ticket}, l.find? q = some t0 →
      f t0 ∈ updateFirst q f l := by
  intro l
  induction l with
  | nil => intro t0 h; cases h
  | cons t ts ih =>
      intro t0 h
      by_cases hq : q t = true
      · rw [List.find?_cons_of_pos _ hq] at h
        cases h
        simp [updateFirst, hq]
      · rw [List.find?_cons_of_neg _ hq] at h
        simp only [updateFirst, hq, if_false, Bool.false_eq_true]
        exact List.mem_cons_of_mem _ (ih h)

lemma mem_updateFirst {q : Ticket → Bool} {f : Ticket → Ticket} :
    ∀ {l : List Ticket} {x : Ticket}, x ∈ updateFirst q f l →
      x ∈ l ∨ ∃ t0, l.find? q = some t0 ∧ x = f t0 := by
  intro l
  induction l with
  | nil => intro x hx; cases hx
  | cons t ts ih =>
      intro x hx
      by_cases hq : q t = true
      · simp only [updateFirst, hq, if_true] at hx
        rcases List.mem_cons.mp hx with h | h
        · exact Or.inr ⟨t, List.find?_cons_of_pos _ hq, h⟩
        · exact Or.inl (List.mem_cons_of_mem _ h)
      · simp only [updateFirst, hq, if_false, Bool.false_eq_true] at hx
        rcases List.mem_cons.mp hx with h | h
        · exact Or.inl (by simp [h])
        · rcases ih h with h2 | ⟨t0, hfind, rfl⟩
          · exact Or.inl (List.mem_cons_of_mem _ h2)
          · exact Or.inr ⟨t0, by rw [List.find?_cons_of_neg _ hq]; exact hfind, rfl⟩

/-- C4: a paid ticket is untouched — still present, verbatim — after any
`cancel_all_reservations` and after any
`check_and_release_expired_reservations`; both sweeps filter on
`is_paid == False`, so settlement wins. -/
theorem paid_ticket_immune_to_cancel_and_expiry
    (db : DB) (user_tg : Nat) (now : Int) (t : Ticket)
    (ht : t ∈ db.tickets) (hp : t.is_paid = true) :
    t ∈ (cancel_all_reservations db user_tg).2.tickets ∧
    t ∈ (check_and_release_expired_reservations db now).2.tickets := by
  constructor
  · unfold cancel_all_reservations
    cases h : findUserByTg db user_tg with
    | none => simpa using ht
    | some u =>
        simp only
        split
        · simp only
          have heq : (fun t => if heldByUser u.id t then releaseTicket t else t) t
              = t := by simp [heldByUser, hp]
          have hmem := List.mem_map_of_mem
            (fun t => if heldByUser u.id t then releaseTicket t else t) ht
          rw [heq] at hmem
          exact hmem
        · simpa using ht
  · have heq : (fun t => if expiredHold now t then releaseTicket t else t) t
        = t := by simp [expiredHold, hp]
    have hmem := List.mem_map_of_mem
      (fun t => if expiredHold now t then releaseTicket t else t) ht
    rw [heq] at hmem
    exact hmem

/-- Witness for C4 at a concrete database: the already-paid ticket survives
both sweeps unchanged. -/
theorem paid_ticket_immune_witness :
    ticketPaidRow ∈ dbNoHolds.tickets ∧ ticketPaidRow.is_paid = true ∧
    (ticketPaidRow ∈ (cancel_all_reservations dbNoHolds 100).2.tickets ∧
     ticketPaidRow ∈ (check_and_release_expired_reservations dbNoHolds 60).2.tickets) :=
  ⟨by decide, by decide,
   paid_ticket_immune_to_cancel_and_expiry dbNoHolds 100 60 ticketPaidRow
     (by decide) (by decide)⟩

/-- C8 (code bug): when the user row exists but no reserved, unpaid ticket
belongs to it, `cancel_all_reservations` falls off the end of its `try`
block and returns Python `None` instead of the success pair; only the
unknown-user path returns `(True, "no active reservations")`.  The state is
still unchanged. -/
theorem cancel_without_holds_returns_none :
    (cancel_all_reservations dbNoHolds 100).1 = none
    ∧ (cancel_all_reservations dbNoHolds 100).2 = dbNoHolds
    ∧ (cancel_all_reservations emptyDB 100).1
        = some (true, CancelMsg.noActiveReservations)
    ∧ (cancel_all_reservations emptyDB 100).2 = emptyDB := by decide

/-- C9: one expiry sweep releases exactly the reserved, unpaid rows whose
deadline is strictly past `now` (clearing hold, deadline and owner), returns
their count, leaves every other row verbatim; an immediate second sweep
finds nothing, returns 0 and changes nothing. -/
theorem release_expired_idempotent (db : DB) (now : Int) :
    (check_and_release_expired_reservations db now).1
      = (db.tickets.filter (expiredHold now)).length
    ∧ (∀ t ∈ db.tickets, expiredHold now t = true →
        releaseTicket t ∈ (check_and_release_expired_reservations db now).2.tickets)
    ∧ (∀ t ∈ db.tickets, expiredHold now t = false →
        t ∈ (check_and_release_expired_reservations db now).2.tickets)
    ∧ check_and_release_expired_reservations
        (check_and_release_expired_reservations db now).2 now
      = (0, (check_and_release_expired_reservations db now).2) := by
  refine ⟨rfl, ?_, ?_, ?_⟩
  · intro t ht hexp
    have heq : (fun t => if expiredHold now t then releaseTicket t else t) t
        = releaseTicket t := by simp [hexp]
    have hmem := List.mem_map_of_mem
      (fun t => if expiredHold now t then releaseTicket t else t) ht
    rw [heq] at hmem
    exact hmem
  · intro t ht hexp
    have heq : (fun t => if expiredHold now t then releaseTicket t else t) t
        = t := by simp [hexp]
    have hmem := List.mem_map_of_mem
      (fun t => if expiredHold now t then releaseTicket t else t) ht
    rw [heq] at hmem
    exact hmem
  · have hall : ∀ x ∈ (check_and_release_expired_reservations db now).2.tickets,
        expiredHold now x = false := by
      intro x hx
      simp only [check_and_release_expired_reservations] at hx
      rcases List.mem_map.mp hx with ⟨y, _, rfl⟩
      by_cases hc : expiredHold now y = true
      · rw [if_pos hc]; simp [expiredHold, releaseTicket]
      · rw [if_neg hc]; simpa using hc
    have hnil : (check_and_release_expired_reservations db now).2.tickets.filter
        (expiredHold now) = [] :=
      List.filter_eq_nil_iff.mpr (fun a ha => by simp [hall a ha])
    have hmap : (check_and_release_expired_reservations db now).2.tickets.map
        (fun t => if expiredHold now t then releaseTicket t else t)
        = (check_and_release_expired_reservations db now).2.tickets := by
      refine (List.map_congr_left ?_).trans (List.map_id _)
      intro x hx
      simp [hall x hx]
    conv_lhs => rw [check_and_release_expired_reservations]
    rw [hnil, hmap]
    rfl

lemma get_pending_prize_err (db : DB) (now : Int) :
    get_pending_prize db now = Except.error attrErr := by
  unfold get_pending_prize
  rw [if_neg (by decide : ¬ botPrizeColumns.contains winnerDeterminedCol = true)]

lemma active_after_deactivate {db : DB} {now : Int} {p2 : Prize}
    (h : p2 ∈ (deactivate_all_active_prizes db now).prizes)
    (ha : p2.is_active = true) : p2 ∈ db.prizes := by
  simp only [deactivate_all_active_prizes] at h
  rcases List.mem_map.mp h with ⟨q, hq, rfl⟩
  by_cases hc : (q.is_active && decide (q.end_date ≤ now)) = true
  · rw [if_pos hc] at ha ⊢
    simp at ha
  · rwa [if_neg hc]

lemma active_after_announce {db : DB} {now : Int} {ann : Option Nat} {p2 : Prize}
    (h : p2 ∈ (check_and_announce_prizes db now ann).prizes)
    (ha : p2.is_active = true) :
    ∃ p ∈ db.prizes, p.id = p2.id ∧ p.is_active = true := by
  have base : p2 ∈ (deactivate_all_active_prizes db now).prizes →
      ∃ p ∈ db.prizes, p.id = p2.id ∧ p.is_active = true :=
    fun hm => ⟨p2, active_after_deactivate hm ha, rfl, ha⟩
  simp only [check_and_announce_prizes] at h
  split at h
  · exact base h
  · -- an active prize exists: only its chat handle may change
    split at h
    · exact base h
    · split at h
      · -- announcement sent: only the chat handle of the active prize changes
        obtain ⟨q, hq2, heq⟩ := List.mem_map.mp h
        split at heq
        · subst heq
          exact ⟨q, active_after_deactivate hq2 (by simpa using ha), by simp,
            by simpa using ha⟩
        · subst heq
          exact ⟨q, active_after_deactivate hq2 ha, rfl, ha⟩
      · exact base h
  · -- no active prize: the pending lookup raises, the handler catches
    split at h
    · exact base h
    · exact base h
    · rename_i heq
      rw [get_pending_prize_err] at heq
      cases heq

/-- C10: the pending-prize query references `Prize.winner_determined`, which
the bot's SQLAlchemy model does not declare, so `get_pending_prize` always
raises; the announcement sweep catches the error, and therefore no prize
that was not already active ever becomes active through
`check_and_announce_prizes`. -/
theorem pending_lookup_raises_and_sweep_never_activates (db : DB) (now : Int) :
    get_pending_prize db now = Except.error attrErr
    ∧ ∀ (ann : Option Nat), ∀ p2 ∈ (check_and_announce_prizes db now ann).prizes,
        p2.is_active = true → ∃ p ∈ db.prizes, p.id = p2.id ∧ p.is_active = true :=
  ⟨get_pending_prize_err db now,
   fun _ _ h ha => active_after_announce h ha⟩

/-- Witness for C10 at a concrete database: the query errors and the still
active prize after the sweep was already active before it. -/
theorem pending_lookup_raises_witness :
    get_pending_prize dbHeld 10 = Except.error attrErr
    ∧ prizePaid ∈ (check_and_announce_prizes dbHeld 10 none).prizes
    ∧ (∃ p ∈ dbHeld.prizes, p.id = prizePaid.id ∧ p.is_active = true) :=
  ⟨(pending_lookup_raises_and_sweep_never_activates dbHeld 10).1,
   by decide,
   (pending_lookup_raises_and_sweep_never_activates dbHeld 10).2 none prizePaid
     (by decide) (by decide)⟩

/-- Witness for C9 at a concrete database: one expired hold is released on
the first sweep and the second sweep is a no-op. -/
theorem release_expired_idempotent_witness :
    (check_and_release_expired_reservations dbExpiry 10).1 = 1
    ∧ releaseTicket ticketExpired
        ∈ (check_and_release_expired_reservations dbExpiry 10).2.tickets
    ∧ check_and_release_expired_reservations
        (check_and_release_expired_reservations dbExpiry 10).2 10
      = (0, (check_and_release_expired_reservations dbExpiry 10).2) :=
  ⟨(release_expired_idempotent dbExpiry 10).1.trans (by decide),
   (release_expired_idempotent dbExpiry 10).2.1 ticketExpired (by decide) (by decide),
   (release_expired_idempotent dbExpiry 10).2.2.2⟩

lemma reserveStep_inv {prize_id uid : Nat} {rtime : Int} {acc : List Ticket × List Nat}
    {n : Nat} (h : ∀ t ∈ acc.1, TicketPaidInv t ∧ TicketOwnerInv t) :
    ∀ t ∈ (reserveStep prize_id uid rtime acc n).1, TicketPaidInv t ∧ TicketOwnerInv t := by
  intro t ht
  unfold reserveStep at ht
  split at ht
  · rename_i t0 hfind
    split at ht
    · exact h t ht
    · rename_i hguard
      rcases mem_updateFirst ht with hmem | ⟨t1, hfind2, rfl⟩
      · exact h t hmem
      · have hfind3 : firstTicket acc.1 prize_id n = some t1 := hfind2
        rw [hfind] at hfind3
        cases hfind3
        have hguard2 : (t0.is_reserved || t0.is_paid) = false := by simpa using hguard
        rcases Bool.or_eq_false_iff.mp hguard2 with ⟨hr, hp2⟩
        constructor
        · intro hpaid
          exact absurd hpaid (by simp [reserveHold, hp2])
        · intro huser
          simp [reserveHold] at huser
  · rcases List.mem_append.mp ht with hmem | hmem
    · exact h t hmem
    · rw [List.mem_singleton.mp hmem]
      exact ⟨fun hpaid => by simp [newReservedTicket] at hpaid,
        fun huser => by simp [newReservedTicket] at huser⟩

lemma reserveFold_inv {prize_id uid : Nat} {rtime : Int} :
    ∀ (nums : List Nat) (acc : List Ticket × List Nat),
      (∀ t ∈ acc.1, TicketPaidInv t ∧ TicketOwnerInv t) →
      ∀ t ∈ (nums.foldl (reserveStep prize_id uid rtime) acc).1,
        TicketPaidInv t ∧ TicketOwnerInv t := by
  intro nums
  induction nums with
  | nil => intro acc h; exact h
  | cons n rest ih => intro acc h; exact ih _ (reserveStep_inv h)

lemma DBInv_reserve {db : DB} (h : DBInv db) (prize_id user_tg : Nat)
    (nums : List Nat) (rt now : Int) :
    DBInv (reserve_tickets db prize_id user_tg nums rt now).2 := by
  unfold reserve_tickets
  split
  · exact h
  · split
    · exact h
    · split
      · exact h
      · dsimp only
        split
        · exact h
        · exact reserveFold_inv nums (db.tickets, []) h

lemma DBInv_release_map {db : DB} (h : DBInv db) (c : Ticket → Bool)
    (hc : ∀ t, c t = true → t.is_paid = false) :
    ∀ t ∈ db.tickets.map (fun t => if c t then releaseTicket t else t),
      TicketPaidInv t ∧ TicketOwnerInv t := by
  intro t ht
  rcases List.mem_map.mp ht with ⟨y, hy, rfl⟩
  by_cases hcy : c y = true
  · rw [if_pos hcy]
    refine ⟨fun hpaid => absurd hpaid (by simp [releaseTicket, hc y hcy]), fun _ => ?_⟩
    simp [releaseTicket, hc y hcy]
  · rw [if_neg hcy]
    exact h y hy

lemma DBInv_cancel {db : DB} (h : DBInv db) (user_tg : Nat) :
    DBInv (cancel_all_reservations db user_tg).2 := by
  unfold cancel_all_reservations
  split
  · exact h
  · rename_i u _
    dsimp only
    split
    · exact DBInv_release_map h (heldByUser u.id)
        (fun t hc => by
          simp only [heldByUser, Bool.and_eq_true, Bool.not_eq_true'] at hc
          exact hc.2)
    · exact h

lemma DBInv_releaseExpired {db : DB} (h : DBInv db) (now : Int) :
    DBInv (check_and_release_expired_reservations db now).2 := by
  unfold check_and_release_expired_reservations
  exact DBInv_release_map h (expiredHold now)
    (fun t hc => by
      simp only [expiredHold, Bool.and_eq_true, Bool.not_eq_true'] at hc
      exact hc.1.2)

lemma DBInv_settle {db : DB} (h : DBInv db) (payment_id status : String) :
    DBInv (update_tickets_payment_status db payment_id status).2 := by
  unfold update_tickets_payment_status
  split
  · exact h
  · rename_i uid pid _
    dsimp only
    split
    · exact h
    · split
      · split
        · rename_i u p hu hp
          intro t ht
          rcases List.mem_map.mp ht with ⟨y, hy, rfl⟩
          by_cases hcy : batchPred uid pid y = true
          · rw [if_pos hcy]
            rcases Option.bind_eq_some.mp hu with ⟨uidv, huidv, _⟩
            subst huidv
            simp only [batchPred, Bool.and_eq_true, beq_iff_eq,
              Bool.not_eq_true'] at hcy
            refine ⟨fun _ => ⟨rfl, rfl⟩, fun hnone => ?_⟩
            simp [settleTicket, hcy.1.1.1] at hnone
          · rw [if_neg hcy]
            exact h y hy
        · exact h
      · exact h

lemma DBInv_process {db : DB} (h : DBInv db) (spid : Option Nat) (user_tg : Nat)
    (nums : List Nat) (now : Int) :
    DBInv (process_ticket_numbers db spid user_tg nums now).2 := by
  unfold process_ticket_numbers
  split
  · exact h
  · split
    · exact h
    · split
      · exact h
      · dsimp only
        split
        · exact h
        · split
          · exact h
          · split
            · exact h
            · split
              · split
                · exact h
                · rename_i u _
                  split
                  · exact h
                  · split
                    · exact h
                    · intro t ht
                      rcases mem_updateFirst ht with hmem | ⟨t1, hfind2, rfl⟩
                      · exact h t hmem
                      · have hg := List.find?_some hfind2
                        simp only [grantable, Bool.and_eq_true, Bool.not_eq_true',
                          beq_iff_eq] at hg
                        have howner := (h t1 (List.mem_of_find?_eq_some hfind2)).2
                          hg.1.2
                        refine ⟨fun _ => ?_, fun hnone => ?_⟩
                        · exact ⟨by simp [grantTicket, howner.1],
                            by simp [grantTicket, howner.2.2]⟩
                        · simp [grantTicket] at hnone
              · split
                · exact DBInv_reserve h _ _ _ _ _
                · exact DBInv_reserve h _ _ _ _ _

/-- C2: starting from any state satisfying the data-model invariants, every
core mutating operation — reserve, cancel-all, expired-hold release,
settlement, and the free-ticket grant inside the handler — leaves every
ticket with `is_paid = true` unreserved and without a deadline. -/
theorem paid_implies_unreserved_after_ops (db : DB) (hinv : DBInv db) :
    (∀ (prize_id user_tg : Nat) (nums : List Nat) (rt now : Int),
       PaidInvDB (reserve_tickets db prize_id user_tg nums rt now).2)
    ∧ (∀ user_tg : Nat, PaidInvDB (cancel_all_reservations db user_tg).2)
    ∧ (∀ now : Int, PaidInvDB (check_and_release_expired_reservations db now).2)
    ∧ (∀ payment_id status : String,
       PaidInvDB (update_tickets_payment_status db payment_id status).2)
    ∧ (∀ (spid : Option Nat) (user_tg : Nat) (nums : List Nat) (now : Int),
       PaidInvDB (process_ticket_numbers db spid user_tg nums now).2) :=
  ⟨fun pid tg nums rt now t ht => (DBInv_reserve hinv pid tg nums rt now t ht).1,
   fun tg t ht => (DBInv_cancel hinv tg t ht).1,
   fun now t ht => (DBInv_releaseExpired hinv now t ht).1,
   fun pid st t ht => (DBInv_settle hinv pid st t ht).1,
   fun spid tg nums now t ht => (DBInv_process hinv spid tg nums now t ht).1⟩

/-- Witness for C2 at a concrete database satisfying the invariants. -/
theorem paid_implies_unreserved_witness :
    DBInv dbSettle
    ∧ PaidInvDB (update_tickets_payment_status dbSettle payRef succeededStatus).2
    ∧ PaidInvDB (cancel_all_reservations dbSettle 100).2
    ∧ PaidInvDB (process_ticket_numbers dbFree (some 2) 100 [1] 5).2 :=
  ⟨by decide,
   (paid_implies_unreserved_after_ops dbSettle (by decide)).2.2.2.1 payRef succeededStatus,
   (paid_implies_unreserved_after_ops dbSettle (by decide)).2.1 100,
   (paid_implies_unreserved_after_ops dbFree (by decide)).2.2.2.2 (some 2) 100 [1] 5⟩

lemma reserve_tickets_prizes (db : DB) (prize_id user_tg : Nat) (nums : List Nat)
    (rt now : Int) : (reserve_tickets db prize_id user_tg nums rt now).2.prizes
      = db.prizes := by
  unfold reserve_tickets
  split
  · rfl
  · split
    · rfl
    · split
      · rfl
      · dsimp only
        split
        · rfl
        · rfl

lemma cancel_all_reservations_prizes (db : DB) (user_tg : Nat) :
    (cancel_all_reservations db user_tg).2.prizes = db.prizes := by
  unfold cancel_all_reservations
  split
  · rfl
  · dsimp only
    split
    · rfl
    · rfl

lemma release_expired_prizes (db : DB) (now : Int) :
    (check_and_release_expired_reservations db now).2.prizes = db.prizes := rfl

lemma settle_prizes (db : DB) (payment_id status : String) :
    (update_tickets_payment_status db payment_id status).2.prizes = db.prizes := by
  unfold update_tickets_payment_status
  split
  · rfl
  · dsimp only
    split
    · rfl
    · split
      · split
        · rfl
        · rfl
      · rfl

lemma init_payment_prizes (db : DB) (user_tg : Nat) (gw : Option String) (now : Int) :
    (init_payment db user_tg gw now).2.prizes = db.prizes := by
  unfold init_payment
  split
  · rfl
  · split
    · rfl
    · rfl
    · dsimp only
      split
      · rfl
      · split
        · rfl
        · rfl

lemma process_ticket_numbers_prizes (db : DB) (spid : Option Nat) (user_tg : Nat)
    (nums : List Nat) (now : Int) :
    (process_ticket_numbers db spid user_tg nums now).2.prizes = db.prizes := by
  unfold process_ticket_numbers
  split
  · rfl
  · split
    · rfl
    · split
      · rfl
      · dsimp only
        split
        · rfl
        · split
          · rfl
          · split
            · rfl
            · split
              · split
                · rfl
                · split
                  · rfl
                  · split
                    · rfl
                    · rfl
              · split
                · exact reserve_tickets_prizes db _ user_tg nums 1 now
                · exact reserve_tickets_prizes db _ user_tg nums 1 now

lemma activeCount_map_le {l : List Prize} {f : Prize → Prize}
    (hf : ∀ p ∈ l, (f p).is_active = true → p.is_active = true) :
    activeCount (l.map f) ≤ activeCount l := by
  unfold activeCount
  rw [← List.countP_eq_length_filter, ← List.countP_eq_length_filter, List.countP_map]
  exact List.countP_mono_left (fun x hx h => hf x hx (by simpa using h))

lemma ids_map_eq {l : List Prize} {f : Prize → Prize}
    (hf : ∀ p ∈ l, (f p).id = p.id) :
    (l.map f).map (fun p => p.id) = l.map (fun p => p.id) := by
  rw [List.map_map]
  exact List.map_congr_left (fun a ha => hf a ha)

lemma count_id_le_one {l : List Prize}
    (hnd : (l.map (fun p => p.id)).Nodup) (i : Nat) :
    (l.filter (fun q => q.id == i)).length ≤ 1 := by
  induction l with
  | nil => simp
  | cons q l ih =>
      rw [List.map_cons, List.nodup_cons] at hnd
      by_cases hq : (q.id == i) = true
      · have hnil : l.filter (fun q2 => q2.id == i) = [] := by
          rw [List.filter_eq_nil_iff]
          intro x hx hxi
          exact hnd.1 (by
            rw [eq_of_beq hq, ← eq_of_beq hxi]
            exact List.mem_map_of_mem _ hx)
        simp [List.filter_cons, hq, hnil]
      · simp only [List.filter_cons, hq, if_false, Bool.false_eq_true]
        exact ih hnd.2

lemma prize_clean_no_other_active {prizes : List Prize} {p : Prize} {now : Int}
    (hc : prize_clean prizes p now = Except.ok ()) (hact : p.is_active = true) :
    ∀ q ∈ prizes, q.id = p.id ∨ q.is_active = false := by
  intro q hq
  unfold prize_clean at hc
  by_cases hb : (p.is_active && prizes.any (fun q => q.id != p.id && q.is_active)) = true
  · rw [if_pos hb] at hc
    cases hc
  · have hany : prizes.any (fun q => q.id != p.id && q.is_active) = false := by
      rcases Bool.and_eq_false_iff.mp (eq_false_of_ne_true hb) with h1 | h1
      · rw [hact] at h1; cases h1
      · exact h1
    have := List.any_eq_false.mp hany q hq
    simp only [Bool.and_eq_true, bne_iff_ne, not_and] at this
    by_cases hid : q.id = p.id
    · exact Or.inl hid
    · exact Or.inr (Bool.not_eq_true _ ▸ this hid)

lemma PrizeInv_map {db : DB} {f : Prize → Prize}
    (hid : ∀ p ∈ db.prizes, (f p).id = p.id)
    (hact : ∀ p ∈ db.prizes, (f p).is_active = true → p.is_active = true)
    (h : PrizeInv db) :
    ((db.prizes.map f).map (fun p => p.id)).Nodup
      ∧ activeCount (db.prizes.map f) ≤ 1 :=
  ⟨by rw [ids_map_eq hid]; exact h.1, le_trans (activeCount_map_le hact) h.2⟩

lemma PrizeInv_adminSave {db : DB} {p : Prize} {now : Int}
    (hc : prize_clean db.prizes p now = Except.ok ())
    (h : PrizeInv db) : PrizeInv (admin_save_prize db p) := by
  obtain ⟨hnd, hcount⟩ := h
  unfold admin_save_prize
  split
  · -- update in place
    refine ⟨?_, ?_⟩
    · rw [ids_map_eq (fun q _ => ?_)]
      · exact hnd
      · split
        · rename_i hq
          exact (eq_of_beq hq).symm
        · rfl
    · by_cases hact : p.is_active = true
      · have hno := prize_clean_no_other_active hc hact
        unfold activeCount
        rw [← List.countP_eq_length_filter, List.countP_map]
        calc List.countP ((fun q => q.is_active) ∘
                (fun q => if q.id == p.id then p else q)) db.prizes
            ≤ List.countP (fun q => q.id == p.id) db.prizes := by
              refine List.countP_mono_left (fun x hx hh => ?_)
              by_cases hid : (x.id == p.id) = true
              · exact hid
              · simp only [Function.comp, hid, if_false, Bool.false_eq_true] at hh
                rcases hno x hx with h1 | h1
                · exact absurd (beq_iff_eq.mpr h1) hid
                · rw [h1] at hh
                  cases hh
          _ = (db.prizes.filter (fun q => q.id == p.id)).length :=
              List.countP_eq_length_filter _ _
          _ ≤ 1 := count_id_le_one hnd p.id
      · refine le_trans (activeCount_map_le (fun q _ hh => ?_)) hcount
        by_cases hid : (q.id == p.id) = true
        · rw [if_pos hid] at hh
          exact absurd hh (by simp [hact])
        · rwa [if_neg hid] at hh
  · -- insert
    rename_i hex
    have hnotin : ∀ q ∈ db.prizes, (q.id == p.id) = false := by
      intro q hq
      exact eq_false_of_ne_true (List.any_eq_false.mp (eq_false_of_ne_true hex) q hq)
    refine ⟨?_, ?_⟩
    · rw [List.map_append, List.nodup_append]
      refine ⟨hnd, by simp, ?_⟩
      intro a ha hb
      rcases List.mem_map.mp ha with ⟨q, hq, rfl⟩
      simp only [List.map_cons, List.map_nil, List.mem_cons, List.not_mem_nil,
        or_false] at hb
      exact absurd (beq_iff_eq.mpr hb) (by rw [hnotin q hq]; simp)
    · unfold activeCount
      rw [List.filter_append]
      by_cases hact : p.is_active = true
      · have hno := prize_clean_no_other_active hc hact
        have hempty : db.prizes.filter (fun q => q.is_active) = [] := by
          rw [List.filter_eq_nil_iff]
          intro q hq hqa
          rcases hno q hq with h1 | h1
          · exact absurd (beq_iff_eq.mpr h1) (by rw [hnotin q hq]; simp)
          · rw [h1] at hqa
            cases hqa
        simp [hempty, hact]
      · have hpf : p.is_active = false := eq_false_of_ne_true hact
        simp only [List.filter_cons, hpf, if_false, Bool.false_eq_true,
          List.filter_nil, List.length_append, List.length_nil]
        simpa using hcount

lemma PrizeInv_of_prizes_eq {db db2 : DB} (heq : db2.prizes = db.prizes)
    (h : PrizeInv db) : PrizeInv db2 := by
  unfold PrizeInv at h ⊢
  rw [heq]
  exact h

lemma PrizeInv_deactivate {db : DB} (now : Int) (h : PrizeInv db) :
    PrizeInv (deactivate_all_active_prizes db now) := by
  unfold deactivate_all_active_prizes
  refine PrizeInv_map (fun q _ => ?_) (fun q _ => ?_) h
  · split <;> rfl
  · split
    · intro hh
      cases hh
    · exact fun hh => hh

lemma PrizeInv_announce {db : DB} (now : Int) (ann : Option Nat) (h : PrizeInv db) :
    PrizeInv (check_and_announce_prizes db now ann) := by
  have hd := PrizeInv_deactivate now h
  simp only [check_and_announce_prizes]
  split
  · exact hd
  · split
    · exact hd
    · split
      · refine PrizeInv_map (fun q _ => ?_) (fun q _ => ?_) hd
        · split <;> rfl
        · split
          · exact fun hh => hh
          · exact fun hh => hh
      · exact hd
  · split
    · exact hd
    · exact hd
    · rename_i heq
      rw [get_pending_prize_err] at heq
      cases heq

lemma PrizeInv_finish {db : DB} (now : Int) (h : PrizeInv db) :
    PrizeInv (check_and_finish_expired_prizes db now).2 := by
  unfold check_and_finish_expired_prizes
  refine PrizeInv_map (fun q _ => ?_) (fun q _ => ?_) h
  · split <;> rfl
  · split
    · intro hh
      cases hh
    · exact fun hh => hh

lemma PrizeInv_step {db db2 : DB} (hs : Step db db2) (h : PrizeInv db) :
    PrizeInv db2 := by
  cases hs with
  | adminSave p now hc => exact PrizeInv_adminSave hc h
  | addUser u => exact PrizeInv_of_prizes_eq rfl h
  | reserve prize_id user_tg nums rt now =>
      exact PrizeInv_of_prizes_eq (reserve_tickets_prizes db prize_id user_tg nums rt now) h
  | cancelAll user_tg =>
      exact PrizeInv_of_prizes_eq (cancel_all_reservations_prizes db user_tg) h
  | releaseExpired now =>
      exact PrizeInv_of_prizes_eq (release_expired_prizes db now) h
  | settle payment_id status =>
      exact PrizeInv_of_prizes_eq (settle_prizes db payment_id status) h
  | initPayment user_tg gw now =>
      exact PrizeInv_of_prizes_eq (init_payment_prizes db user_tg gw now) h
  | handleNumbers spid user_tg nums now =>
      exact PrizeInv_of_prizes_eq (process_ticket_numbers_prizes db spid user_tg nums now) h
  | announceSweep now ann => exact PrizeInv_announce now ann h
  | finishSweep now => exact PrizeInv_finish now h

lemma PrizeInv_reachable {db : DB} (h : Reachable db) : PrizeInv db := by
  induction h with
  | init => exact ⟨List.nodup_nil, by decide⟩
  | step _ hs ih => exact PrizeInv_step hs ih

/-- C5: in every reachable state at most one prize is active; the activation
sweep keeps it that way; and the admin validation `Prize.clean` rejects
flagging a prize active while a different active prize exists. -/
theorem at_most_one_active_prize (db : DB) (hr : Reachable db) :
    activeCount db.prizes ≤ 1
    ∧ (∀ (now : Int) (ann : Option Nat),
        activeCount (check_and_announce_prizes db now ann).prizes ≤ 1)
    ∧ (∀ (p : Prize) (now : Int), p.is_active = true →
        (∃ q ∈ db.prizes, q.id ≠ p.id ∧ q.is_active = true) →
        prize_clean db.prizes p now = Except.error CleanError.secondActive) := by
  refine ⟨(PrizeInv_reachable hr).2, ?_, ?_⟩
  · intro now ann
    exact (PrizeInv_announce now ann (PrizeInv_reachable hr)).2
  · intro p now hact ⟨q, hq, hqid, hqa⟩
    unfold prize_clean
    rw [if_pos]
    rw [hact, Bool.true_and, List.any_eq_true]
    refine ⟨q, hq, ?_⟩
    simp only [hqa, Bool.and_true, bne_iff_ne]
    exact hqid

/-- Witness for C5: a concrete reachable one-prize state; the count is 1 and
a second active prize is rejected by validation. -/
theorem at_most_one_active_witness :
    Reachable (admin_save_prize emptyDB prizePaid)
    ∧ activeCount (admin_save_prize emptyDB prizePaid).prizes ≤ 1
    ∧ prize_clean (admin_save_prize emptyDB prizePaid).prizes prizeSecond 50
        = Except.error CleanError.secondActive := by
  have hre : Reachable (admin_save_prize emptyDB prizePaid) :=
    Reachable.step Reachable.init
      (Step.adminSave emptyDB prizePaid 50 rfl)
  exact ⟨hre, (at_most_one_active_prize _ hre).1,
    (at_most_one_active_prize _ hre).2.2 prizeSecond 50 (by decide)
      ⟨prizePaid, by decide, by decide, by decide⟩⟩

lemma heldOrPaid_iff {db : DB} {pid n : Nat} :
    heldOrPaid db pid n = true ↔
      ∃ t ∈ db.tickets, t.prize_id = pid ∧ t.ticket_number = n ∧
        (t.is_reserved = true ∨ t.is_paid = true) := by
  unfold heldOrPaid
  rw [List.any_eq_true]
  constructor
  · rintro ⟨t, ht, hcond⟩
    simp only [Bool.and_eq_true, beq_iff_eq, Bool.or_eq_true] at hcond
    exact ⟨t, ht, hcond.1.1, hcond.1.2, hcond.2⟩
  · rintro ⟨t, ht, h1, h2, h3⟩
    refine ⟨t, ht, ?_⟩
    rcases h3 with h3 | h3 <;> simp [h1, h2, h3]

lemma mem_available_iff {db : DB} {prize_id n : Nat} {p : Prize}
    (hp : findPrize db prize_id = some p) :
    n ∈ get_available_tickets db prize_id ↔
      (1 ≤ n ∧ n ≤ p.ticket_count) ∧ heldOrPaid db prize_id n = false := by
  unfold get_available_tickets
  rw [hp]
  simp only [List.mem_filter, List.mem_range'_1, Bool.not_eq_true']
  constructor
  · rintro ⟨⟨h1, h2⟩, h3⟩
    refine ⟨⟨h1, by omega⟩, ?_⟩
    by_contra hcontra
    rcases heldOrPaid_iff.mp (Bool.not_eq_false _ ▸ hcontra) with ⟨t, ht, ht1, ht2, ht3⟩
    have hmem2 : n ∈ (db.tickets.filter
        (fun t => t.prize_id == prize_id && (t.is_reserved || t.is_paid))).map
        (fun t => t.ticket_number) := by
      refine ht2 ▸ List.mem_map_of_mem _ (List.mem_filter.mpr ⟨ht, ?_⟩)
      rcases ht3 with h | h <;> simp [ht1, h]
    have h4 : ((db.tickets.filter
        (fun t => t.prize_id == prize_id && (t.is_reserved || t.is_paid))).map
        (fun t => t.ticket_number)).contains n = true := List.elem_iff.mpr hmem2
    rw [h4] at h3
    cases h3
  · rintro ⟨⟨h1, h2⟩, h3⟩
    refine ⟨⟨h1, by omega⟩, ?_⟩
    rw [← Bool.not_eq_true]
    intro hcontra
    have hmem2 : n ∈ (db.tickets.filter
        (fun t => t.prize_id == prize_id && (t.is_reserved || t.is_paid))).map
        (fun t => t.ticket_number) := List.elem_iff.mp hcontra
    rcases List.mem_map.mp hmem2 with ⟨t, htf, htn⟩
    rcases List.mem_filter.mp htf with ⟨ht, hcond⟩
    simp only [Bool.and_eq_true, beq_iff_eq, Bool.or_eq_true] at hcond
    rw [show heldOrPaid db prize_id n = true from
      heldOrPaid_iff.mpr ⟨t, ht, hcond.1, htn, hcond.2⟩] at h3
    cases h3

lemma contains_available_eq {db : DB} {prize_id n : Nat} {p : Prize}
    (hp : findPrize db prize_id = some p)
    (hrange : 1 ≤ n ∧ n ≤ p.ticket_count) :
    (get_available_tickets db prize_id).contains n = !(heldOrPaid db prize_id n) := by
  by_cases hh : heldOrPaid db prize_id n = true
  · rw [hh, Bool.not_true, Bool.eq_false_iff]
    intro hcontra
    have hmem2 := (mem_available_iff hp).mp (List.elem_iff.mp hcontra)
    rw [hh] at hmem2
    cases hmem2.2
  · have hh2 : heldOrPaid db prize_id n = false := eq_false_of_ne_true hh
    rw [hh2, Bool.not_false]
    exact List.elem_iff.mpr ((mem_available_iff hp).mpr ⟨hrange, hh2⟩)

lemma contains_available_false_of_held {db : DB} {prize_id n : Nat} {p : Prize}
    (hp : findPrize db prize_id = some p)
    (hh : heldOrPaid db prize_id n = true) :
    (get_available_tickets db prize_id).contains n = false := by
  rw [Bool.eq_false_iff]
  intro hcontra
  have hmem2 := (mem_available_iff hp).mp (List.elem_iff.mp hcontra)
  rw [hh] at hmem2
  cases hmem2.2

lemma reserve_tickets_fail_eq {db : DB} {prize_id user_tg : Nat} {nums : List Nat}
    {rt now : Int} {p : Prize} {u : TgUser}
    (hp : findPrize db prize_id = some p) (hact : p.is_active = true)
    (hu : findUserByTg db user_tg = some u)
    (hne : nums.filter (fun n => !((get_available_tickets db prize_id).contains n)) ≠ []) :
    reserve_tickets db prize_id user_tg nums rt now =
      (⟨false, nums.filter (fun n => !((get_available_tickets db prize_id).contains n)),
        ReserveMsg.ticketsUnavailable⟩, db) := by
  unfold reserve_tickets
  rw [hp]
  dsimp only
  rw [if_neg (by simp [hact]), hu]
  dsimp only
  rw [if_pos (by simp only [Bool.not_eq_true', List.isEmpty_eq_false]; exact hne)]

lemma reserve_tickets_ok_eq {db : DB} {prize_id user_tg : Nat} {nums : List Nat}
    {rt now : Int} {p : Prize} {u : TgUser}
    (hp : findPrize db prize_id = some p) (hact : p.is_active = true)
    (hu : findUserByTg db user_tg = some u)
    (hemp : nums.filter (fun n => !((get_available_tickets db prize_id).contains n)) = []) :
    reserve_tickets db prize_id user_tg nums rt now =
      (⟨true, (nums.foldl (reserveStep prize_id u.id (now + rt)) (db.tickets, [])).2,
        ReserveMsg.reserved⟩,
       { db with tickets :=
          (nums.foldl (reserveStep prize_id u.id (now + rt)) (db.tickets, [])).1 }) := by
  unfold reserve_tickets
  rw [hp]
  dsimp only
  rw [if_neg (by simp [hact]), hu]
  dsimp only
  rw [if_neg (by rw [hemp]; decide)]

lemma firstTicket_append {l l2 : List Ticket} {prize_id n : Nat} :
    firstTicket (l ++ l2) prize_id n =
      (firstTicket l prize_id n).or (firstTicket l2 prize_id n) :=
  List.find?_append

lemma firstTicket_singleton_ne {t : Ticket} {prize_id n : Nat}
    (h : t.ticket_number ≠ n) : firstTicket [t] prize_id n = none := by
  unfold firstTicket
  rw [List.find?_cons_of_neg _ (by simp [h]), List.find?_nil]

lemma reserveStep_firstTicket_other {prize_id uid m n : Nat} {rtime : Int}
    {acc : List Ticket × List Nat} (hmn : m ≠ n) :
    firstTicket (reserveStep prize_id uid rtime acc m).1 prize_id n
      = firstTicket acc.1 prize_id n := by
  unfold reserveStep
  split
  · split
    · rfl
    · dsimp only
      refine find?_updateFirst_disjoint (fun t ht => ?_) (fun t ht => ?_) acc.1
      · simp only [Bool.and_eq_true, beq_iff_eq] at ht
        simp [ht.2, hmn]
      · simp only [Bool.and_eq_true, beq_iff_eq] at ht
        simp [reserveHold, ht.2, hmn]
  · dsimp only
    rw [firstTicket_append, firstTicket_singleton_ne hmn, Option.or_none]

lemma reserveStep_self_clean {prize_id uid n : Nat} {rtime : Int}
    {acc : List Ticket × List Nat} (h : cleanRowAt acc.1 prize_id n) :
    heldRowAt (reserveStep prize_id uid rtime acc n).1 prize_id n uid rtime := by
  unfold reserveStep
  split
  · rename_i t0 hfind
    rcases h with hnone | ⟨t1, hfind1, hr, hp2⟩
    · rw [hfind] at hnone
      cases hnone
    · rw [hfind] at hfind1
      cases hfind1
      split
      · rename_i hguard
        rw [hr, hp2] at hguard
        cases hguard
      · dsimp only
        exact ⟨reserveHold uid rtime t0,
          find?_updateFirst_found (f := reserveHold uid rtime)
            (q := fun t => t.prize_id == prize_id && t.ticket_number == n)
            (fun t ht => ht) hfind, rfl, rfl, hp2, rfl⟩
  · rename_i hfind
    dsimp only
    refine ⟨newReservedTicket prize_id uid n rtime, ?_, rfl, rfl, rfl, rfl⟩
    rw [firstTicket_append, hfind, Option.none_or]
    exact List.find?_cons_of_pos _ (by simp [newReservedTicket])

lemma reserveStep_preserves_held {prize_id uid m n : Nat} {rtime : Int}
    {acc : List Ticket × List Nat}
    (h : heldRowAt acc.1 prize_id n uid rtime) :
    heldRowAt (reserveStep prize_id uid rtime acc m).1 prize_id n uid rtime := by
  by_cases hmn : m = n
  · subst hmn
    obtain ⟨t, hfind, hu2, hr, hp2, hru⟩ := h
    unfold reserveStep
    split
    · rename_i t0 hfind0
      rw [hfind0] at hfind
      cases hfind
      split
      · exact ⟨_, hfind0, hu2, hr, hp2, hru⟩
      · rename_i hguard
        rw [hr] at hguard
        simp at hguard
    · rename_i hfind0
      rw [hfind0] at hfind
      cases hfind
  · unfold heldRowAt
    simp only [reserveStep_firstTicket_other hmn]
    exact h

lemma reserveFold_preserves_held {prize_id uid n : Nat} {rtime : Int} :
    ∀ (ms : List Nat) (acc : List Ticket × List Nat),
      heldRowAt acc.1 prize_id n uid rtime →
      heldRowAt ((ms.foldl (reserveStep prize_id uid rtime) acc)).1 prize_id n uid rtime := by
  intro ms
  induction ms with
  | nil => exact fun acc h => h
  | cons m rest ih => exact fun acc h => ih _ (reserveStep_preserves_held h)

lemma reserveFold_holds {prize_id uid n : Nat} {rtime : Int} :
    ∀ (ms : List Nat) (acc : List Ticket × List Nat), n ∈ ms →
      cleanRowAt acc.1 prize_id n ∨ heldRowAt acc.1 prize_id n uid rtime →
      heldRowAt ((ms.foldl (reserveStep prize_id uid rtime) acc)).1 prize_id n uid rtime := by
  intro ms
  induction ms with
  | nil => intro acc h; cases h
  | cons m rest ih =>
      intro acc hmem hstate
      by_cases hmn : m = n
      · subst hmn
        have hheld : heldRowAt (reserveStep prize_id uid rtime acc m).1 prize_id m uid rtime := by
          rcases hstate with hclean | hheld
          · exact reserveStep_self_clean hclean
          · exact reserveStep_preserves_held hheld
        exact reserveFold_preserves_held rest _ hheld
      · have hrest : n ∈ rest := by
          rcases List.mem_cons.mp hmem with h | h
          · exact absurd h.symm hmn
          · exact h
        refine ih _ hrest ?_
        rcases hstate with hclean | hheld
        · left
          unfold cleanRowAt at hclean ⊢
          simp only [reserveStep_firstTicket_other hmn]
          exact hclean
        · exact Or.inr (reserveStep_preserves_held hheld)

lemma cleanRowAt_of_not_heldOrPaid {db : DB} {prize_id n : Nat}
    (h : heldOrPaid db prize_id n = false) : cleanRowAt db.tickets prize_id n := by
  cases hf : firstTicket db.tickets prize_id n with
  | none => exact Or.inl hf
  | some t =>
      right
      have hmem := List.mem_of_find?_eq_some hf
      have hpred := List.find?_some hf
      simp only [Bool.and_eq_true, beq_iff_eq] at hpred
      have hnot : ¬ (t.prize_id == prize_id && t.ticket_number == n
          && (t.is_reserved || t.is_paid)) = true := by
        unfold heldOrPaid at h
        exact List.any_eq_false.mp h t hmem
      simp only [hpred.1, hpred.2, beq_self_eq_true, Bool.true_and,
        Bool.or_eq_true, not_or, Bool.not_eq_true] at hnot
      exact ⟨t, hf, hnot.1, hnot.2⟩

/-- C1: against an active prize with a registered user and in-range requested
numbers, `reserve_tickets` is all-or-nothing: if any requested number is
already held or paid the call fails, returns exactly the requested numbers
that are unavailable and leaves the database untouched; if every requested
number is free, the call succeeds and every requested number's row is held
by the caller with `reserved_until = now + reserve_time`. -/
theorem reserve_all_or_nothing (db : DB) (prize_id user_tg : Nat) (nums : List Nat)
    (rt now : Int) (p : Prize) (u : TgUser)
    (hp : findPrize db prize_id = some p) (hact : p.is_active = true)
    (hu : findUserByTg db user_tg = some u)
    (hrange : ∀ n ∈ nums, 1 ≤ n ∧ n ≤ p.ticket_count) :
    ((∃ n ∈ nums, heldOrPaid db prize_id n = true) →
      reserve_tickets db prize_id user_tg nums rt now
        = (⟨false, nums.filter (fun n => heldOrPaid db prize_id n),
            ReserveMsg.ticketsUnavailable⟩, db))
    ∧ ((∀ n ∈ nums, heldOrPaid db prize_id n = false) →
      (reserve_tickets db prize_id user_tg nums rt now).1.success = true
      ∧ ∀ n ∈ nums, ∃ t,
          firstTicket (reserve_tickets db prize_id user_tg nums rt now).2.tickets
            prize_id n = some t
          ∧ t.user_id = some u.id ∧ t.is_reserved = true ∧ t.is_paid = false
          ∧ t.reserved_until = some (now + rt)) := by
  have hfilter : nums.filter (fun n => !((get_available_tickets db prize_id).contains n))
      = nums.filter (fun n => heldOrPaid db prize_id n) :=
    List.filter_congr (fun n hn => by
      rw [contains_available_eq hp (hrange n hn), Bool.not_not])
  constructor
  · rintro ⟨n, hn, hheld⟩
    have hne : nums.filter (fun n => heldOrPaid db prize_id n) ≠ [] := by
      intro hnil
      exact absurd hheld (List.filter_eq_nil_iff.mp hnil n hn)
    rw [reserve_tickets_fail_eq hp hact hu (by rw [hfilter]; exact hne), hfilter]
  · intro hfree
    have hemp : nums.filter (fun n => !((get_available_tickets db prize_id).contains n))
        = [] := by
      rw [hfilter]
      exact List.filter_eq_nil_iff.mpr (fun n hn => by simp [hfree n hn])
    rw [reserve_tickets_ok_eq hp hact hu hemp]
    refine ⟨rfl, fun n hn => ?_⟩
    exact reserveFold_holds nums (db.tickets, []) hn
      (Or.inl (cleanRowAt_of_not_heldOrPaid (hfree n hn)))

/-- Witness for C1 at a concrete database: requesting the already-held
number 1 fails naming it while requesting the free numbers 3 and 4 succeeds
and holds both. -/
theorem reserve_all_or_nothing_witness :
    reserve_tickets dbHeld 1 100 [1, 3] 1 10
      = (⟨false, [1], ReserveMsg.ticketsUnavailable⟩, dbHeld)
    ∧ (reserve_tickets dbHeld 1 100 [3, 4] 1 10).1.success = true
    ∧ (∃ t, firstTicket (reserve_tickets dbHeld 1 100 [3, 4] 1 10).2.tickets 1 3 = some t
        ∧ t.user_id = some userA.id ∧ t.is_reserved = true ∧ t.is_paid = false
        ∧ t.reserved_until = some 11) := by
  refine ⟨?_, ?_, ?_⟩
  · have h := (reserve_all_or_nothing dbHeld 1 100 [1, 3] 1 10 prizePaid userA
      (by decide) (by decide) (by decide) (by decide)).1 ⟨1, by decide, by decide⟩
    rw [h]
    decide
  · exact ((reserve_all_or_nothing dbHeld 1 100 [3, 4] 1 10 prizePaid userA
      (by decide) (by decide) (by decide) (by decide)).2 (by decide)).1
  · exact ((reserve_all_or_nothing dbHeld 1 100 [3, 4] 1 10 prizePaid userA
      (by decide) (by decide) (by decide) (by decide)).2 (by decide)).2 3 (by decide)

/-- C7 counterexample: `userA` already holds ticket 1; re-requesting `[1]`
does not refresh the hold — the call fails, reports 1 unavailable and leaves
the database unchanged. -/
theorem self_held_refresh_counterexample :
    reserve_tickets dbHeld 1 100 [1] 1 10
      = (⟨false, [1], ReserveMsg.ticketsUnavailable⟩, dbHeld) := by decide

/-- C7 amended: a number already held by the caller is treated exactly like
one held by anyone else — the availability check excludes every reserved
row regardless of owner, so the request fails with that number reported
unavailable and no state changes (no refresh semantics). -/
theorem self_held_reported_unavailable (db : DB) (prize_id user_tg : Nat)
    (nums : List Nat) (rt now : Int) (p : Prize) (u : TgUser) (n : Nat) (t : Ticket)
    (hp : findPrize db prize_id = some p) (hact : p.is_active = true)
    (hu : findUserByTg db user_tg = some u) (hn : n ∈ nums)
    (ht : t ∈ db.tickets) (htp : t.prize_id = prize_id) (htn : t.ticket_number = n)
    (hres : t.is_reserved = true) (hown : t.user_id = some u.id) :
    (reserve_tickets db prize_id user_tg nums rt now).1.success = false
    ∧ n ∈ (reserve_tickets db prize_id user_tg nums rt now).1.tickets
    ∧ (reserve_tickets db prize_id user_tg nums rt now).2 = db := by
  have hheld : heldOrPaid db prize_id n = true :=
    heldOrPaid_iff.mpr ⟨t, ht, htp, htn, Or.inl hres⟩
  have hcontains : (get_available_tickets db prize_id).contains n = false :=
    contains_available_false_of_held hp hheld
  have hmem : n ∈ nums.filter
      (fun m => !((get_available_tickets db prize_id).contains m)) :=
    List.mem_filter.mpr ⟨hn, by rw [hcontains]; rfl⟩
  have hne : nums.filter
      (fun m => !((get_available_tickets db prize_id).contains m)) ≠ [] := by
    intro hnil
    rw [hnil] at hmem
    cases hmem
  rw [reserve_tickets_fail_eq hp hact hu hne]
  exact ⟨rfl, hmem, rfl⟩

/-- Witness for the amended C7 at a concrete database. -/
theorem self_held_reported_unavailable_witness :
    (reserve_tickets dbHeld 1 100 [1] 1 10).1.success = false
    ∧ 1 ∈ (reserve_tickets dbHeld 1 100 [1] 1 10).1.tickets
    ∧ (reserve_tickets dbHeld 1 100 [1] 1 10).2 = dbHeld :=
  self_held_reported_unavailable dbHeld 1 100 [1] 1 10 prizePaid userA 1 ticketHeld
    (by decide) (by decide) (by decide) (by decide) (by decide) (by decide)
    (by decide) (by decide) (by decide)

lemma find?_map_of_pred_eq {g : Ticket → Ticket} {pr : Ticket → Bool}
    (hpr : ∀ t, pr (g t) = pr t) (l : List Ticket) :
    (l.map g).find? pr = (l.find? pr).map g := by
  rw [List.find?_map]
  congr 1
  exact congrArg (fun q => List.find? q l) (funext (fun t => hpr t))

lemma settleKey_eq_of_tickets {db2 db3 : DB} {ref : String}
    (hteq : db2.tickets = db3.tickets) : settleKey db2 ref = settleKey db3 ref := by
  unfold settleKey
  rw [hteq]

lemma settle_empty_batch {db2 : DB} {ref st : String} {uid : Option Nat} {pid : Nat}
    (hkey : settleKey db2 ref = some (uid, pid))
    (hempty : db2.tickets.filter (batchPred uid pid) = []) :
    update_tickets_payment_status db2 ref st = ((false, []), db2) := by
  unfold update_tickets_payment_status
  rw [hkey]
  dsimp only
  rw [if_pos (by rw [hempty]; rfl)]

lemma settled_batch_empty {db : DB} {uid : Option Nat} {pid : Nat} :
    (db.tickets.map (fun t => if batchPred uid pid t then settleTicket t else t)).filter
      (batchPred uid pid) = [] := by
  rw [List.filter_eq_nil_iff]
  intro x hx
  rcases List.mem_map.mp hx with ⟨y, _, rfl⟩
  by_cases hb : batchPred uid pid y = true
  · rw [if_pos hb]
    simp [batchPred, settleTicket]
  · rw [if_neg hb]
    simpa using hb

/-- C3 amended: re-invoking settlement with the same reference after a
successful settlement inserts no further Payment row and changes no ticket —
the state is returned untouched — but the call reports failure with an empty
ticket list instead of the already-settled batch. -/
theorem settle_twice_amended (db : DB) (ref : String) (ts : List Ticket) (db1 : DB)
    (h : update_tickets_payment_status db ref succeededStatus = ((true, ts), db1)) :
    update_tickets_payment_status db1 ref succeededStatus = ((false, []), db1) := by
  unfold update_tickets_payment_status at h
  split at h
  · simp at h
  · rename_i uid pid hkey
    dsimp only at h
    split at h
    · simp at h
    · rename_i hbatch
      split at h
      · split at h
        · rename_i u p hu hp
          obtain ⟨h1, h2⟩ := Prod.ext_iff.mp h
          subst h2
          have hkey2 : settleKey { db with
              tickets := db.tickets.map
                (fun t => if batchPred uid pid t then settleTicket t else t) } ref
              = some (uid, pid) := by
            by_cases hs : strStartsWith ref freeTag = true
            · unfold settleKey at hkey ⊢
              rw [if_pos hs] at hkey ⊢
              exact hkey
            · unfold settleKey at hkey ⊢
              rw [if_neg hs] at hkey ⊢
              rcases Option.map_eq_some'.mp hkey with ⟨t0, hfind0, hpair⟩
              rw [show ({ db with
                  tickets := db.tickets.map
                    (fun t => if batchPred uid pid t then settleTicket t else t) } : DB).tickets
                  = db.tickets.map
                    (fun t => if batchPred uid pid t then settleTicket t else t) from rfl]
              rw [find?_map_of_pred_eq (fun t => ?_) db.tickets]
              · rw [hfind0, Option.map_some']
                show some ((if batchPred uid pid t0 then settleTicket t0 else t0).user_id,
                    (if batchPred uid pid t0 then settleTicket t0 else t0).prize_id)
                  = some (uid, pid)
                have heq2 : (if batchPred uid pid t0 then settleTicket t0 else t0).user_id
                      = t0.user_id
                    ∧ (if batchPred uid pid t0 then settleTicket t0 else t0).prize_id
                      = t0.prize_id := by
                  by_cases hb : batchPred uid pid t0 = true
                  · rw [if_pos hb]
                    exact ⟨rfl, rfl⟩
                  · rw [if_neg hb]
                    exact ⟨rfl, rfl⟩
                rw [heq2.1, heq2.2]
                exact congrArg some hpair
              · by_cases hb : batchPred uid pid t = true
                · rw [if_pos hb]
                  rfl
                · rw [if_neg hb]
          exact settle_empty_batch ((settleKey_eq_of_tickets rfl).trans hkey2)
            settled_batch_empty
        · simp at h
      · simp at h

/-- C3 counterexample: settling `payRef` once succeeds with a non-empty
batch; settling it again returns `(False, [])` and not the already-settled
batch, so the claim's "no-op returning the already-settled batch" is false
on the code (the no-Payment and no-ticket-change parts do hold: the state is
returned unchanged). -/
theorem settle_twice_counterexample :
    (update_tickets_payment_status dbSettle payRef succeededStatus).1.1 = true
    ∧ (update_tickets_payment_status dbSettle payRef succeededStatus).1.2 ≠ []
    ∧ update_tickets_payment_status
        (update_tickets_payment_status dbSettle payRef succeededStatus).2
        payRef succeededStatus
      = ((false, []), (update_tickets_payment_status dbSettle payRef succeededStatus).2) := by
  decide

/-- Witness for the amended C3 at a concrete database. -/
theorem settle_twice_amended_witness :
    update_tickets_payment_status
        (update_tickets_payment_status dbSettle payRef succeededStatus).2
        payRef succeededStatus
      = ((false, []), (update_tickets_payment_status dbSettle payRef succeededStatus).2) :=
  settle_twice_amended dbSettle payRef
    (update_tickets_payment_status dbSettle payRef succeededStatus).1.2
    (update_tickets_payment_status dbSettle payRef succeededStatus).2
    (by decide)

/-- C6: the free-prize flow of the ticket handler.  First conjunct: naming
two or more numbers for a zero-price active prize is rejected with the
one-ticket-only error and changes nothing.  Second conjunct: naming one
available number whose eagerly created row is unowned and unpaid commits
that row directly as paid with the synthetic `free_...` reference and
creates no Payment record.  Third conjunct: once the user owns a paid
ticket of that prize, a later free request is rejected with
AlreadyParticipated and changes nothing. -/
theorem free_prize_flow :
    (∀ (db : DB) (prize_id user_tg : Nat) (nums : List Nat) (now : Int) (p : Prize),
       db.prizes.find? (fun q => q.is_active) = some p → p.id = prize_id →
       p.ticket_price = 0 → 2 ≤ nums.length →
       process_ticket_numbers db (some prize_id) user_tg nums now
         = (FlowResult.oneTicketOnlyFree, db))
    ∧ (∀ (db : DB) (prize_id user_tg n : Nat) (now : Int) (p : Prize) (u : TgUser)
         (t0 : Ticket),
       db.prizes.find? (fun q => q.is_active) = some p → p.id = prize_id →
       p.ticket_price = 0 → findPrize db prize_id = some p →
       findUserByTg db user_tg = some u →
       1 ≤ n ∧ n ≤ p.ticket_count → heldOrPaid db prize_id n = false →
       db.tickets.filter
         (fun t => t.user_id == some u.id && t.prize_id == prize_id && t.is_paid) = [] →
       db.tickets.find? (grantable prize_id n) = some t0 →
       process_ticket_numbers db (some prize_id) user_tg [n] now
         = (FlowResult.freeTicketGranted n,
            { db with tickets := (updateFirst (grantable prize_id n)
                (grantTicket u.id (freeRef user_tg prize_id now)) db.tickets) })
       ∧ grantTicket u.id (freeRef user_tg prize_id now) t0
           ∈ (process_ticket_numbers db (some prize_id) user_tg [n] now).2.tickets
       ∧ (grantTicket u.id (freeRef user_tg prize_id now) t0).is_paid = true
       ∧ (grantTicket u.id (freeRef user_tg prize_id now) t0).payment_id
           = some (freeRef user_tg prize_id now)
       ∧ (process_ticket_numbers db (some prize_id) user_tg [n] now).2.payments
           = db.payments)
    ∧ (∀ (db : DB) (prize_id user_tg m : Nat) (now : Int) (p : Prize) (u : TgUser),
       db.prizes.find? (fun q => q.is_active) = some p → p.id = prize_id →
       p.ticket_price = 0 → findPrize db prize_id = some p →
       findUserByTg db user_tg = some u →
       1 ≤ m ∧ m ≤ p.ticket_count → heldOrPaid db prize_id m = false →
       (∃ t ∈ db.tickets, t.user_id = some u.id ∧ t.prize_id = prize_id ∧
          t.is_paid = true) →
       process_ticket_numbers db (some prize_id) user_tg [m] now
         = (FlowResult.alreadyParticipated, db)) := by
  refine ⟨?_, ?_, ?_⟩
  · intro db prize_id user_tg nums now p hfa hid hfree hlen
    unfold process_ticket_numbers
    dsimp only
    rw [hfa]
    dsimp only
    rw [if_neg (by simp [hid])]
    rw [if_neg (by
      rw [List.isEmpty_iff]
      intro hnil
      rw [hnil] at hlen
      exact absurd hlen (by simp))]
    rw [if_pos (by
      simp only [hfree, beq_self_eq_true, Bool.true_and, gt_iff_lt,
        decide_eq_true_eq]
      omega)]
  · intro db prize_id user_tg n now p u t0 hfa hid hfree hp hu hrange hheld hnopaid hgrant
    have hresult : process_ticket_numbers db (some prize_id) user_tg [n] now
        = (FlowResult.freeTicketGranted n,
           { db with tickets := (updateFirst (grantable prize_id n)
              (grantTicket u.id (freeRef user_tg prize_id now)) db.tickets) }) := by
      unfold process_ticket_numbers
      dsimp only
      rw [hfa]
      dsimp only
      rw [if_neg (by simp [hid])]
      rw [if_neg (by simp)]
      rw [if_neg (by simp [hfree])]
      rw [if_neg (by
        simp only [List.filter_cons, List.filter_nil,
          contains_available_eq hp hrange, hheld, Bool.not_false, Bool.not_true,
          if_false, Bool.false_eq_true, List.isEmpty_nil, not_true_eq_false,
          Bool.not_eq_true]
        exact not_false)]
      rw [if_pos (by simp [hfree])]
      rw [hu]
      dsimp only
      rw [if_neg (by rw [hnopaid]; decide)]
      rw [show ([n].headD 0) = n from rfl, hgrant]
    refine ⟨hresult, ?_, rfl, rfl, ?_⟩
    · rw [hresult]
      exact mem_updateFirst_of_found hgrant
    · rw [hresult]
  · intro db prize_id user_tg m now p u hfa hid hfree hp hu hrange hheld hexist
    unfold process_ticket_numbers
    dsimp only
    rw [hfa]
    dsimp only
    rw [if_neg (by simp [hid])]
    rw [if_neg (by simp)]
    rw [if_neg (by simp [hfree])]
    rw [if_neg (by
      simp only [List.filter_cons, List.filter_nil,
        contains_available_eq hp hrange, hheld, Bool.not_false, Bool.not_true,
        if_false, Bool.false_eq_true, List.isEmpty_nil, not_true_eq_false,
        Bool.not_eq_true]
      exact not_false)]
    rw [if_pos (by simp [hfree])]
    rw [hu]
    dsimp only
    rw [if_pos (by
      obtain ⟨t, ht, h1, h2, h3⟩ := hexist
      have hmem : t ∈ db.tickets.filter
          (fun t => t.user_id == some u.id && t.prize_id == prize_id && t.is_paid) :=
        List.mem_filter.mpr ⟨ht, by simp [h1, h2, h3]⟩
      simp only [Bool.not_eq_true', List.isEmpty_eq_false]
      intro hnil
      rw [hnil] at hmem
      cases hmem)]

/-- Witness for C6 at a concrete database: two numbers are rejected, one
number is granted as paid with the synthetic reference and no Payment row,
and a repeat request is rejected. -/
theorem free_prize_flow_witness :
    process_ticket_numbers dbFree (some 2) 100 [1, 2] 5
      = (FlowResult.oneTicketOnlyFree, dbFree)
    ∧ (process_ticket_numbers dbFree (some 2) 100 [2] 5
        = (FlowResult.freeTicketGranted 2,
           { dbFree with tickets := (updateFirst (grantable 2 2)
              (grantTicket userA.id (freeRef 100 2 5)) dbFree.tickets) })
       ∧ grantTicket userA.id (freeRef 100 2 5) freeRow2
           ∈ (process_ticket_numbers dbFree (some 2) 100 [2] 5).2.tickets
       ∧ (grantTicket userA.id (freeRef 100 2 5) freeRow2).is_paid = true
       ∧ (grantTicket userA.id (freeRef 100 2 5) freeRow2).payment_id
           = some (freeRef 100 2 5)
       ∧ (process_ticket_numbers dbFree (some 2) 100 [2] 5).2.payments
           = dbFree.payments)
    ∧ process_ticket_numbers dbFreeDone (some 2) 100 [3] 6
        = (FlowResult.alreadyParticipated, dbFreeDone) :=
  ⟨free_prize_flow.1 dbFree 2 100 [1, 2] 5 prizeFree (by decide) (by decide)
     (by decide) (by decide),
   free_prize_flow.2.1 dbFree 2 100 2 5 prizeFree userA freeRow2 (by decide)
     (by decide) (by decide) (by decide) (by decide) (by decide) (by decide)
     (by decide) (by decide),
   free_prize_flow.2.2 dbFreeDone 2 100 3 6 prizeFree userA (by decide)
     (by decide) (by decide) (by decide) (by decide) (by decide) (by decide)
     ⟨grantTicket userA.id (freeRef 100 2 5) freeRow2, by decide, by decide,
      by decide, by decide⟩⟩

end PrizeBot
